import Mathlib

/-!
# Verification of the starsync sync engine

A shallow embedding, in Lean, of the core of the `starsync` synchronization
engine (`src/sync/mod.rs`, `src/sync/utils.rs`, `src/sync/info.rs`,
`src/source/mod.rs`, `src/config.rs`), together with theorems settling the
specification claims about it.

Modelling conventions:
* Rust `u64` track identifiers are modelled as `Nat` (only equality and
  hashing are used by the engine).
* `Rating = Option<NonZeroU8>` is modelled as `Option Nat` (the nonzero
  invariant is enforced by the parsing and classification functions that
  produce ratings).
* Filesystem paths are modelled as lists of components (`List String`),
  matching Rust's component-wise `Path` operations (`strip_prefix`, `join`).
* `HashMap`/`HashSet` are modelled as association lists / lists; `insert`
  replaces the value of an existing key in place, as in Rust.
* Fallible operations (`Result`) are modelled with `Except`; side effects
  (calls to `set_rating`, `change_contents_to`, file pushes/deletes) are
  modelled by returning the list of issued calls.
* Unicode lowercasing (`str::to_lowercase`) is modelled with per-character
  ASCII lowercasing, which agrees with it on ASCII strings.
-/

namespace StarSync

/-- A song ID (`TrackId(u64)` in `src/source/mod.rs`). -/
abbrev TrackId := Nat

/-- A playlist ID (`PlaylistId` in `src/source/mod.rs`). -/
inductive PlaylistId
  | Number (n : Nat)
  | Name (s : String)
deriving DecidableEq, Repr

/-- The user rating of a track: `None`, or between 1 and 5 stars
(`Rating = Option<NonZeroU8>` in `src/source/mod.rs`). -/
abbrev Rating := Option Nat

/-- A filesystem path, as its list of components. -/
abbrev FsPath := List String

/-! ## Character and string helpers (Rust `str` methods) -/

/-- `str::strip_prefix` on character lists: remove `p` from the front of `s`
if it is a prefix, otherwise `none`. -/
def stripPrefixCs : List Char → List Char → Option (List Char)
  | [], s => some s
  | _ :: _, [] => none
  | p :: ps, c :: cs => if p = c then stripPrefixCs ps cs else none

/-- `str::strip_suffix` on character lists. -/
def stripSuffixCs (p s : List Char) : Option (List Char) :=
  (stripPrefixCs p.reverse s.reverse).map List.reverse

/-- ASCII lowercasing of one string (model of `str::to_lowercase`). -/
def lowerStr (s : String) : String :=
  String.mk (s.data.map Char.toLower)

/-- Lowercasing of a path: `path.to_string_lossy().to_lowercase()` followed by
`PathBuf::from` leaves the separators intact, so it lowercases each component. -/
def lowerPath (p : FsPath) : FsPath :=
  p.map lowerStr

/-! ## Rust integer parsing (`"...".parse::<NonZeroU8>()`) -/

/-- Parse a non-empty all-digit character list as a decimal number. -/
def parseDigitsCs (cs : List Char) : Option Nat :=
  if cs.isEmpty then none
  else if cs.all (fun c => c.isDigit) then
    some (cs.foldl (fun n c => n * 10 + (c.toNat - 48)) 0)
  else none

/-- Model of `str::parse::<u8>()`: an optional leading `+`, then one or more
decimal digits; the value must fit in a `u8`. -/
def parseU8Cs (cs : List Char) : Option Nat :=
  let digits := match cs with
    | '+' :: rest => rest
    | other => other
  (parseDigitsCs digits).bind (fun n => if n ≤ 255 then some n else none)

/-- Model of `str::parse::<NonZeroU8>()`: parse as `u8`, reject zero. -/
def parseNonZeroU8Cs (cs : List Char) : Option Nat :=
  (parseU8Cs cs).bind (fun n => if n = 0 then none else some n)

/-! ## Playlist classifier (`src/sync/utils.rs`) -/

/-- `RATINGS_PLAYLIST_PREFIX` in `src/sync/utils.rs`. -/
def ratingsPlaylistPrefixStr : String := "Favourites - "

/-- `RATINGS_PLAYLIST_SUFFIX` in `src/sync/utils.rs`. -/
def ratingsPlaylistSuffixStr : String := " stars.m3u"

/-- `RequestedPlaylistKind` in `src/sync/utils.rs`. -/
inductive RequestedPlaylistKind
  | Regular
  | Ratings
deriving DecidableEq, Repr

/-- `ActualPlaylistKind` in `src/sync/utils.rs`. -/
inductive ActualPlaylistKind
  | Regular (name : String)
  | Ratings (stars : Nat)
deriving DecidableEq, Repr

/-- `ActualPlaylistKind::classify`: strip the `"Favourites - "` prefix and the
`" stars.m3u"` suffix, parse the middle as a `NonZeroU8`, keep it when at most
five (`Option::filter`); otherwise the playlist is regular. -/
def ActualPlaylistKind.classify (m3u_file_name : String) : ActualPlaylistKind :=
  match ((stripPrefixCs ratingsPlaylistPrefixStr.data m3u_file_name.data).bind
      (fun rest => stripSuffixCs ratingsPlaylistSuffixStr.data rest)).bind
      (fun digits => (parseNonZeroU8Cs digits).bind
        (fun stars => if stars ≤ 5 then some stars else none)) with
  | some stars => ActualPlaylistKind.Ratings stars
  | none => ActualPlaylistKind.Regular m3u_file_name

/-- `ActualPlaylistKind::stars`. -/
def ActualPlaylistKind.stars : ActualPlaylistKind → Rating
  | ActualPlaylistKind.Ratings s => some s
  | ActualPlaylistKind.Regular _ => none

/-- `favorites_playlist_name` in `src/sync/utils.rs`. -/
def favorites_playlist_name (rating : Nat) : String :=
  ratingsPlaylistPrefixStr ++ toString rating ++ ratingsPlaylistSuffixStr

/-! ## File set and forward playlist sync (`src/sync/utils.rs`, `src/sync/mod.rs`) -/

/-- `FileData` in `src/sync/utils.rs`. -/
structure FileData where
  file_size : Nat
  id : TrackId
  rating : Rating
deriving DecidableEq, Repr

/-- `FileSet` in `src/sync/utils.rs`: the common ancestor, a map from relative
paths to per-file data, and the total size. -/
structure FileSet where
  common_ancestor : FsPath
  files_data : List (FsPath × FileData)
  total_size : Nat
deriving DecidableEq, Repr

/-- Replace every backslash with a forward slash
(the `.replace('\x5c', "/")` step of `create_m3u`). -/
def replaceBackslashes (s : String) : String :=
  String.mk (s.data.map (fun c => if c = '\\' then '/' else c))

/-- `create_m3u` in `src/source/mod.rs`: join each song path to the prefix,
render with forward slashes, and join the lines with CRLF. It never fails. -/
def create_m3u (songs_relative_paths : List FsPath) (prefix_to_add : FsPath) : String :=
  String.intercalate "\r\n"
    (songs_relative_paths.map
      (fun p => replaceBackslashes (String.intercalate "/" (prefix_to_add ++ p))))

/-- `FileSet::song_paths_by_rating` in `src/sync/utils.rs`: a map that is
pre-populated with empty buckets for the five ratings, then filled from
`files_data` (a file whose rating has no bucket is dropped). -/
def FileSet.song_paths_by_rating (fs : FileSet) : List (Nat × List FsPath) :=
  [1, 2, 3, 4, 5].map (fun r =>
    (r, (fs.files_data.filter (fun pf => pf.2.rating = some r)).map (fun pf => pf.1)))

/-- `MUSIC_FOLDER_NAME` in `src/device/mod.rs`. -/
def musicFolderNameStr : String := "music"

/-- `push_star_playlists` in `src/sync/mod.rs`, modelled as the list of
`(file name, m3u content)` pairs pushed to the device: one per entry of
`song_paths_by_rating`. -/
def push_star_playlists (fs : FileSet) : List (String × String) :=
  fs.song_paths_by_rating.map (fun rs =>
    (favorites_playlist_name rs.1, create_m3u rs.2 [musicFolderNameStr]))

/-! ## Association-list maps (model of `HashMap`) -/

/-- `HashMap::get` on an association list (first matching key wins). -/
def lookupAssoc {K V : Type} [DecidableEq K] : List (K × V) → K → Option V
  | [], _ => none
  | e :: rest, k => if e.1 = k then some e.2 else lookupAssoc rest k

/-- `HashMap::insert` on an association list: replace the value of an existing
key in place, or append the new entry. -/
def insertAssoc {K V : Type} [DecidableEq K] : List (K × V) → K → V → List (K × V)
  | [], k, v => [(k, v)]
  | e :: rest, k, v => if e.1 = k then (k, v) :: rest else e :: insertAssoc rest k v

/-! ## Sync-info manifest (`src/sync/info.rs`)

The timestamp field is omitted: no reconciliation decision reads it. -/

/-- `SyncInfo` in `src/sync/info.rs`. The keys of `song_data` are the
lowercased relative paths, as produced by `update_sync_info`. -/
structure SyncInfo where
  hostname : String
  common_ancestor : FsPath
  song_data : List (FsPath × (TrackId × Rating))
  playlists : List (String × (PlaylistId × List TrackId))

/-- `SyncInfo::id_for_relative_path`: lowercase the query and look it up in
`song_data`. (No `music/` stripping happens here.) -/
def SyncInfo.id_for_relative_path (si : SyncInfo) (relative_path : FsPath) : Option TrackId :=
  (lookupAssoc si.song_data (lowerPath relative_path)).map (fun data => data.1)

/-- `SyncInfo::rating_for_id`: scan `song_data` for the first entry with this
track id and return its rating. -/
def SyncInfo.rating_for_id (si : SyncInfo) (needle : TrackId) : Rating :=
  (si.song_data.find? (fun e => e.2.1 == needle)).bind (fun e => e.2.2)

/-- `SyncInfo::path_for_id`. -/
def SyncInfo.path_for_id (si : SyncInfo) (id : TrackId) : Option FsPath :=
  (si.song_data.find? (fun e => e.2.1 == id)).map (fun e => e.1)

/-- `SyncInfo::playlist`. -/
def SyncInfo.playlist (si : SyncInfo) (name : String) : Option (PlaylistId × List TrackId) :=
  lookupAssoc si.playlists name

/-- `SyncInfo::has_playlist_file_name`. -/
def SyncInfo.has_playlist_file_name (si : SyncInfo) (needle : String) : Bool :=
  si.playlists.any (fun e => e.1 == needle)

/-! ## Source adapter (`src/source/mod.rs`), as consumed by the engine -/

/-- The attributes of a `Track` trait object that the sync engine reads.
`rating` takes the `use_computed_ratings` flag. -/
structure TrackRec where
  name : String
  id : TrackId
  absolute_path : Except String FsPath
  rating : Bool → Rating
  file_size : Except String Nat

/-- The attributes of a `Playlist` trait object that the sync engine reads
(`change_contents_to` calls are modelled as returned effects). -/
structure SourcePlaylist where
  id : PlaylistId
  tracks : Except String (List TrackRec)

/-- The lookup surface of a `Source` trait object. -/
structure Source where
  playlist_by_name : String → Option SourcePlaylist
  playlist_by_id : PlaylistId → Option SourcePlaylist
  track_by_id : TrackId → Option TrackRec

/-- `Config` in `src/config.rs`. -/
structure Config where
  source : String
  include_ratings : Bool
  use_computed_ratings : Bool
  playlists : List String

/-! ## M3U decoding on the device (`src/sync/mod.rs`) -/

/-- The `path.strip_prefix(MUSIC_FOLDER_NAME).unwrap_or(path)` step of
`m3u_to_song_ids`: drop one leading `music` component if present. -/
def stripMusicDir (p : FsPath) : FsPath :=
  match p with
  | c :: rest => if c = musicFolderNameStr then rest else p
  | [] => p

/-- `m3u_to_song_ids` in `src/sync/mod.rs`: map every path of the playlist to
a track id via the previous manifest, dropping (with a warning) the paths the
manifest does not know. -/
def m3u_to_song_ids (playlist : List FsPath) (previous_sync_info : SyncInfo) : List TrackId :=
  playlist.filterMap (fun path => previous_sync_info.id_for_relative_path (stripMusicDir path))

/-- `Path::extension() == Some("m3u")` for a file name. -/
def hasM3uExtension (name : String) : Bool :=
  let cs := name.data
  decide (5 ≤ cs.length) && (cs.drop (cs.length - 4) == ".m3u".data)

/-- `playlists_on_device` in `src/sync/mod.rs`: keep the `.m3u` files of the
StarSync folder that match the requested kind; for regular playlists, only
those the previous manifest knows. The device folder listing is modelled as
`(file name, parsed m3u paths)` pairs. -/
def playlists_on_device (requested_kind : RequestedPlaylistKind) (previous_sync_info : SyncInfo)
    (starsync_files : List (String × List FsPath)) : List (String × List FsPath) :=
  starsync_files.filter (fun file =>
    hasM3uExtension file.1 &&
      match requested_kind, ActualPlaylistKind.classify file.1 with
      | RequestedPlaylistKind.Regular, ActualPlaylistKind.Regular _ =>
        previous_sync_info.has_playlist_file_name file.1
      | RequestedPlaylistKind.Regular, ActualPlaylistKind.Ratings _ => false
      | RequestedPlaylistKind.Ratings, ActualPlaylistKind.Regular _ => false
      | RequestedPlaylistKind.Ratings, ActualPlaylistKind.Ratings _ => true)

/-! ## Reverse sync of one playlist (`src/sync/mod.rs`) -/

/-- `reverse_sync_playlist` in `src/sync/mod.rs`. The three-way merge
(`diffy::merge_custom`, an external crate) is a parameter. The returned value
is the `change_contents_to` call issued, if any. -/
def reverse_sync_playlist
    (merge : List TrackId → List TrackId → List TrackId → Except String (List TrackId))
    (source : Source) (playlist_id : PlaylistId)
    (ancestor_song_ids device_song_ids : List TrackId) :
    Except String (Option (List TrackId)) :=
  match source.playlist_by_id playlist_id with
  | none => Except.error ("No such playlist")
  | some local_playlist =>
    match local_playlist.tracks with
    | Except.error e => Except.error e
    | Except.ok tracks =>
      let local_song_ids := tracks.map (fun track => track.id)
      if device_song_ids = local_song_ids then Except.ok none
      else
        match merge ancestor_song_ids local_song_ids device_song_ids with
        | Except.error e => Except.error e
        | Except.ok new_song_order =>
          if local_song_ids = new_song_order then Except.ok none
          else Except.ok (some new_song_order)

/-! ## Reverse sync of ratings (`src/sync/mod.rs`) -/

/-- `SyncError` in `src/sync/mod.rs`. -/
inductive SyncError
  | SourceNotFound (s : String)
  | DeviceNotFound (s : String)
  | DeviceReadError
  | NotInited
  | SanityChecks
  | SongScanningFailed (s : String)
  | SyncingFilesFailed (s : String)
  | PushingPlaylistsFailed (s : String)
  | UpdateSyncInfoFailed (s : String)
  | NoCommonAncestor
deriving DecidableEq, Repr

/-- `ReverseSyncRatingsError` in `src/sync/mod.rs` (the `Mising` typo is the
source's). -/
inductive ReverseSyncRatingsError
  | ListingDevicePlaylistsFailed (e : SyncError)
  | MisingRatingsLists
  | DuplicateRatingsForASong
deriving DecidableEq, Repr

/-- The loop body of `are_all_ratings_playslists_on_device`: flag the slot of
the classified star count (out-of-range slots are left alone, as with
`get_mut`). -/
def ratingsFoundStep (found : List Bool) (file : String × List FsPath) : List Bool :=
  match (ActualPlaylistKind.classify file.1).stars with
  | some s => found.set s true
  | none => found

/-- `are_all_ratings_playslists_on_device` in `src/sync/mod.rs`: a six-slot
vector of flags (slot 0 starts true), set from the classification of each
file name; all slots must end up true. -/
def are_all_ratings_playslists_on_device
    (rating_playlists_on_device : List (String × List FsPath)) : Bool :=
  (rating_playlists_on_device.foldl ratingsFoundStep
    [true, false, false, false, false, false]).all (fun v => v)

/-- `NonZeroU8::new`. -/
def nonZeroU8New (n : Nat) : Option Nat :=
  if n = 0 then none else some n

/-- `have_sets_overlap` in `src/sync/mod.rs`: `none` when an index is zero or
a bucket is absent; otherwise whether the two buckets are not disjoint. -/
def have_sets_overlap (ratings_on_device : List (Rating × List TrackId)) (i j : Nat) :
    Option Bool := do
  let i' ← nonZeroU8New i
  let set_a ← lookupAssoc ratings_on_device (some i')
  let j' ← nonZeroU8New j
  let set_b ← lookupAssoc ratings_on_device (some j')
  pure (set_a.any (fun t => set_b.contains t))

/-- The literal ten-way overlap test of `reverse_sync_ratings`
(each call falls back to `true` via `unwrap_or`). -/
def duplicate_ratings_check (m : List (Rating × List TrackId)) : Bool :=
  (have_sets_overlap m 1 2).getD true
  || (have_sets_overlap m 1 3).getD true
  || (have_sets_overlap m 1 4).getD true
  || (have_sets_overlap m 1 5).getD true
  || (have_sets_overlap m 2 3).getD true
  || (have_sets_overlap m 2 4).getD true
  || (have_sets_overlap m 2 5).getD true
  || (have_sets_overlap m 3 4).getD true
  || (have_sets_overlap m 3 5).getD true
  || (have_sets_overlap m 4 5).getD true

/-- The initial `no_ratings` set: the ids of every file on the device that the
previous manifest knows (collected into a `HashSet`, hence deduplicated). -/
def deviceFileIds (psi : SyncInfo) (files_on_device : List FsPath) : List TrackId :=
  (files_on_device.filterMap (fun path => psi.id_for_relative_path path)).dedup

/-- One iteration of the `for (name, m3u) in rating_playlists_on_device` loop
of `reverse_sync_ratings`: convert the playlist to a deduplicated id set,
remove those ids from `no_ratings`, and insert the bucket. -/
def ratingsStep (psi : SyncInfo)
    (st : List TrackId × List (Rating × List TrackId)) (file : String × List FsPath) :
    List TrackId × List (Rating × List TrackId) :=
  match (ActualPlaylistKind.classify file.1).stars with
  | none => st
  | some stars =>
    let ids_with_this_rating := (m3u_to_song_ids file.2 psi).dedup
    (st.1.filter (fun t => !(ids_with_this_rating.contains t)),
      insertAssoc st.2 (some stars) ids_with_this_rating)

/-- The `(no_ratings, ratings_on_device)` state after the bucket-building loop
of `reverse_sync_ratings`. -/
def ratingsFold (psi : SyncInfo) (files_on_device : List FsPath)
    (rating_playlists : List (String × List FsPath)) :
    List TrackId × List (Rating × List TrackId) :=
  rating_playlists.foldl (ratingsStep psi) (deviceFileIds psi files_on_device, [])

/-- `ratings_on_device` after `ratings_on_device.insert(None, no_ratings)`. -/
def ratingsAll (psi : SyncInfo) (files_on_device : List FsPath)
    (rating_playlists : List (String × List FsPath)) : List (Rating × List TrackId) :=
  let st := ratingsFold psi files_on_device rating_playlists
  insertAssoc st.2 none st.1

/-- The final loop of `reverse_sync_ratings`, modelled as the list of
`set_rating` calls issued: `(track id, new rating)` for every track whose
device rating differs from the manifest, that still exists in the source, and
whose source rating equals the manifest rating (otherwise the source wins). -/
def rating_update_calls (psi : SyncInfo) (source : Source) (use_computed_ratings : Bool)
    (ratings_all : List (Rating × List TrackId)) : List (TrackId × Rating) :=
  ratings_all.flatMap (fun bucket =>
    bucket.2.filterMap (fun track_id =>
      let rating_at_previous_sync := psi.rating_for_id track_id
      if rating_at_previous_sync = bucket.1 then none
      else
        match source.track_by_id track_id with
        | none => none
        | some track =>
          if track.rating use_computed_ratings ≠ rating_at_previous_sync then none
          else some (track_id, bucket.1)))

/-- The body of `reverse_sync_ratings` after the previous manifest has been
found and the device's rating playlists listed. -/
def reverse_sync_ratings_inner (psi : SyncInfo) (files_on_device : List FsPath)
    (source : Source) (use_computed_ratings : Bool)
    (rating_playlists : List (String × List FsPath)) :
    Except ReverseSyncRatingsError (List (TrackId × Rating)) :=
  if are_all_ratings_playslists_on_device rating_playlists = false then
    Except.error ReverseSyncRatingsError.MisingRatingsLists
  else if duplicate_ratings_check
      (ratingsFold psi files_on_device rating_playlists).2 = true then
    Except.error ReverseSyncRatingsError.DuplicateRatingsForASong
  else
    Except.ok (rating_update_calls psi source use_computed_ratings
      (ratingsAll psi files_on_device rating_playlists))

/-- `reverse_sync_ratings` in `src/sync/mod.rs` (the device folder listing is
modelled as an already-read list of `(file name, m3u paths)`; without a
previous manifest the phase is skipped). -/
def reverse_sync_ratings (previous_sync_info : Option SyncInfo)
    (files_on_device : List FsPath) (source : Source) (use_computed_ratings : Bool)
    (starsync_files : List (String × List FsPath)) :
    Except ReverseSyncRatingsError (List (TrackId × Rating)) :=
  match previous_sync_info with
  | none => Except.ok []
  | some psi =>
    reverse_sync_ratings_inner psi files_on_device source use_computed_ratings
      (playlists_on_device RequestedPlaylistKind.Ratings psi starsync_files)

/-! ## Forward file sync (`src/sync/mod.rs`, `src/sync/utils.rs`) -/

/-- `case_insensitive_difference` in `src/sync/utils.rs`: the elements of
`left` (original casing) whose lowercased form is not the lowercased form of
any element of `right`. -/
def case_insensitive_difference (left right : List FsPath) : List FsPath :=
  let other := right.map lowerPath
  left.filter (fun item => !(other.contains (lowerPath item)))

/-- The `files_to_remove` of `sync_files`: device files (in original casing)
not expected by the file set, under case-insensitive comparison. -/
def sync_files_to_remove (file_set : FileSet) (files_on_device : List FsPath) : List FsPath :=
  case_insensitive_difference files_on_device (file_set.files_data.map (fun e => e.1))

/-- The `files_to_push` of `sync_files`: expected files (in original casing)
absent from the device under case-insensitive comparison, paired with their
`FileData`. -/
def sync_files_to_push (file_set : FileSet) (files_on_device : List FsPath) :
    List (FsPath × FileData) :=
  (case_insensitive_difference (file_set.files_data.map (fun e => e.1)) files_on_device).filterMap
    (fun path => (lookupAssoc file_set.files_data path).map (fun item => (path, item)))

/-! ## File-set builder (`required_files` in `src/sync/mod.rs`) -/

/-- `Track::file_size` with the warn-and-zero fallback of `required_files`. -/
def sizeOrZero (track : TrackRec) : Nat :=
  match track.file_size with
  | Except.ok size => size
  | Except.error _ => 0

/-- One track of the scan loop of `required_files`: skip tracks without a
path; insert the file data, counting the size only for a fresh path. -/
def scanStep (use_computed_ratings : Bool) (acc : Nat × List (FsPath × FileData))
    (track : TrackRec) : Nat × List (FsPath × FileData) :=
  match track.absolute_path with
  | Except.error _ => acc
  | Except.ok absolute_path =>
    let file_size := sizeOrZero track
    let data : FileData :=
      { file_size := file_size, id := track.id, rating := track.rating use_computed_ratings }
    if (lookupAssoc acc.2 absolute_path).isSome then
      (acc.1, insertAssoc acc.2 absolute_path data)
    else
      (acc.1 + file_size, insertAssoc acc.2 absolute_path data)

/-- The tracks scanned by `required_files`: for each configured playlist name,
the tracks of the source playlist of that name (missing playlists and track
listing errors produce warnings and contribute nothing). -/
def collectTracks (source : Source) (playlist_names : List String) : List TrackRec :=
  playlist_names.flatMap (fun playlist_name =>
    match source.playlist_by_name playlist_name with
    | none => []
    | some list =>
      match list.tracks with
      | Except.error _ => []
      | Except.ok tracks => tracks)

/-- Longest common prefix of two component lists. -/
def longestCommonPfx : FsPath → FsPath → FsPath
  | x :: xs, y :: ys => if x = y then x :: longestCommonPfx xs ys else []
  | _, _ => []

/-- Modelled from the spec: `crate::common_path::common_path_all` is declared
in `lib.rs` but its module source is not under `src/`. Per the spec (§4.6) it
computes "the longest directory prefix that is an ancestor of every path in
the set", and `required_files` fails with `NoCommonAncestor` when none
exists. An ancestor directory is a proper prefix of a file path's components,
and an empty common prefix counts as no common ancestor. -/
def common_path_all (paths : List FsPath) : Option FsPath :=
  match paths with
  | [] => none
  | p :: rest =>
    let ca := rest.foldl (fun acc q => longestCommonPfx acc q.dropLast) p.dropLast
    if ca.isEmpty then none else some ca

/-- `Path::strip_prefix` (component-wise). -/
def stripPathComponents (ancestor p : FsPath) : Option FsPath :=
  if ancestor.isPrefixOf p then some (p.drop ancestor.length) else none

/-- `required_files` in `src/sync/mod.rs`: scan the configured playlists,
deduplicate by absolute path (never counting a size twice), compute the common
ancestor, and strip it (dropping, with a warning, files not under it). -/
def required_files (source : Source) (config : Config) : Except SyncError FileSet :=
  let scan := (collectTracks source config.playlists).foldl
    (scanStep config.use_computed_ratings) (0, [])
  match common_path_all (scan.2.map (fun e => e.1)) with
  | none => Except.error SyncError.NoCommonAncestor
  | some common_ancestor =>
    let relative_files := scan.2.filterMap (fun e =>
      (stripPathComponents common_ancestor e.1).map (fun stripped => (stripped, e.2)))
    Except.ok
      { common_ancestor := common_ancestor, files_data := relative_files,
        total_size := scan.1 }

/-- Reference count for the dedup theorem: the sum of the sizes of the first
occurrence of each distinct path among the scanned `(path, size)` entries. -/
def firstOccSum (seen : List FsPath) : List (FsPath × Nat) → Nat
  | [] => 0
  | e :: rest =>
    if e.1 ∈ seen then firstOccSum seen rest
    else e.2 + firstOccSum (e.1 :: seen) rest

/-- The `(absolute path, counted size)` projection of the scanned tracks that
reach the dedup-insert step (those whose `absolute_path` is `Ok`). -/
def okScanEntries : List TrackRec → List (FsPath × Nat)
  | [] => []
  | t :: rest =>
    match t.absolute_path with
    | Except.error _ => okScanEntries rest
    | Except.ok p => (p, sizeOrZero t) :: okScanEntries rest

/-! ## Orchestrator (`sync_inner` and `start_sync` in `src/sync/mod.rs`) -/

/-- The outcome of each phase called by `sync_inner`, abstracted: only the
success/failure (and the carried error) of a phase determines the control
flow of `sync_inner`. -/
structure PhaseOutcomes where
  files_on_device : Except SyncError (List FsPath)
  reverse_playlists : Except String Unit
  reverse_ratings : Except ReverseSyncRatingsError Unit
  required_files : Except String Unit
  sync_files : Except String Unit
  update_playlists : Except String Unit
  update_sync_info : Except String Unit

/-- The control flow of `sync_inner` in `src/sync/mod.rs`: reverse-sync
errors are demoted to warnings (counted in the result); the remaining phases
are fatal, each behind its error wrapper. Returns the number of warnings
issued at the two catch sites. -/
def sync_inner (include_ratings : Bool) (o : PhaseOutcomes) : Except SyncError Nat :=
  match o.files_on_device with
  | Except.error e => Except.error e
  | Except.ok _ =>
    let w_playlists := match o.reverse_playlists with
      | Except.error _ => 1
      | Except.ok _ => 0
    let w_ratings := if include_ratings then
        match o.reverse_ratings with
        | Except.error _ => 1
        | Except.ok _ => 0
      else 0
    match o.required_files with
    | Except.error e => Except.error (SyncError.SongScanningFailed e)
    | Except.ok _ =>
      match o.sync_files with
      | Except.error e => Except.error (SyncError.SyncingFilesFailed e)
      | Except.ok _ =>
        match o.update_playlists with
        | Except.error e => Except.error (SyncError.PushingPlaylistsFailed e)
        | Except.ok _ =>
          match o.update_sync_info with
          | Except.error e => Except.error (SyncError.UpdateSyncInfoFailed e)
          | Except.ok _ => Except.ok (w_playlists + w_ratings)

/-- `SyncValidator` in `src/sync/mod.rs`. -/
structure SyncValidator where
  last_sync_computer_mismatch : Option (String × String)

/-- `SyncValidator::is_valid`. -/
def SyncValidator.is_valid (v : SyncValidator) : Bool :=
  v.last_sync_computer_mismatch.isNone

/-- `SyncValidator::build`: record the previous and current hostnames when
they differ. -/
def SyncValidator.build (previous_sync_infos : Option SyncInfo) (current_hostname : String) :
    SyncValidator :=
  { last_sync_computer_mismatch := previous_sync_infos.bind (fun psi =>
      if psi.hostname ≠ current_hostname then some (psi.hostname, current_hostname)
      else none) }

/-- The observable outcome of `SyncManager::start_sync`: the worker thread
panics (an `expect` fires), returns a fatal error, or completes with a
warning count. -/
inductive StartSyncOutcome
  | panicked (msg : String)
  | fatal (e : SyncError)
  | completed (warnings : Nat)
deriving DecidableEq, Repr

/-- `SyncManager::start_sync` in `src/sync/mod.rs`. The driver is modelled as
the reply arriving on the inbound channel for the validator sent on the
outbound channel; `none` models a dropped inbound channel, on which
`inbound.recv().expect(...)` panics. The sync body (`sync_inner` plus the
warning count) is a parameter and runs only on a valid acknowledgement. -/
def start_sync (previous_sync_infos : Option SyncInfo) (current_hostname : String)
    (driver : SyncValidator → Option SyncValidator)
    (sync_body : Except SyncError Nat) : StartSyncOutcome :=
  let validator := SyncValidator.build previous_sync_infos current_hostname
  match driver validator with
  | none => StartSyncOutcome.panicked ("sender end not to disconnect")
  | some acknowledged_validator =>
    if acknowledged_validator.is_valid then
      match sync_body with
      | Except.ok warnings => StartSyncOutcome.completed warnings
      | Except.error e => StartSyncOutcome.fatal e
    else StartSyncOutcome.fatal SyncError.SanityChecks

/-! ## Concrete fixtures used to instantiate the theorems -/

/-- A one-song manifest whose song has no recorded rating. -/
def siA : SyncInfo :=
  { hostname := "host", common_ancestor := ["m"],
    song_data := [(["a.mp3"], (1, none))], playlists := [] }

/-- A one-song manifest whose song is rated three stars. -/
def siB : SyncInfo :=
  { hostname := "host", common_ancestor := ["m"],
    song_data := [(["a.mp3"], (1, some 3))], playlists := [] }

/-- An empty file set. -/
def fsEmpty : FileSet :=
  { common_ancestor := [], files_data := [], total_size := 0 }

/-- A source with no playlists and no tracks. -/
def sourceEmpty : Source :=
  { playlist_by_name := fun _ => none, playlist_by_id := fun _ => none,
    track_by_id := fun _ => none }

/-- The track of `siB` as the source currently reports it: still rated three
stars. -/
def trackB : TrackRec :=
  { name := "a", id := 1, absolute_path := Except.ok ["m", "a.mp3"],
    rating := fun _ => some 3, file_size := Except.ok 10 }

/-- A source holding only `trackB`. -/
def sourceB : Source :=
  { playlist_by_name := fun _ => none, playlist_by_id := fun _ => none,
    track_by_id := fun track_id => if track_id = 1 then some trackB else none }

/-- The files present on the device for the `siB` scenario. -/
def filesB : List FsPath := [["a.mp3"]]

/-- A device StarSync folder with the five rating playlists, the song listed
under five stars. -/
def starB : List (String × List FsPath) :=
  [("Favourites - 1 stars.m3u", []),
   ("Favourites - 2 stars.m3u", []),
   ("Favourites - 3 stars.m3u", []),
   ("Favourites - 4 stars.m3u", []),
   ("Favourites - 5 stars.m3u", [["music", "a.mp3"]])]

/-- A device StarSync folder missing the one-star playlist entirely. -/
def starFour : List (String × List FsPath) :=
  [("Favourites - 2 stars.m3u", []),
   ("Favourites - 3 stars.m3u", []),
   ("Favourites - 4 stars.m3u", []),
   ("Favourites - 5 stars.m3u", [])]

/-- A device StarSync folder where the exact file `Favourites - 1 stars.m3u`
is absent but a variant spelling of it is present. -/
def starB01 : List (String × List FsPath) :=
  [("Favourites - 01 stars.m3u", []),
   ("Favourites - 2 stars.m3u", []),
   ("Favourites - 3 stars.m3u", []),
   ("Favourites - 4 stars.m3u", []),
   ("Favourites - 5 stars.m3u", [])]

/-- A file set carrying one file, for the case-insensitivity scenario. -/
def fsC : FileSet :=
  { common_ancestor := ["m"],
    files_data := [(["Song.mp3"], { file_size := 10, id := 1, rating := none })],
    total_size := 10 }

/-- The same file as `fsC` on the device, with different casing. -/
def deviceC : List FsPath := [["song.MP3"]]

/-- A track reachable through two different playlists of `sourceD`. -/
def trackD : TrackRec :=
  { name := "a", id := 1, absolute_path := Except.ok ["m", "sub", "a.mp3"],
    rating := fun _ => none, file_size := Except.ok 10 }

/-- A second track, under the same ancestor as `trackD`. -/
def trackD2 : TrackRec :=
  { name := "b", id := 2, absolute_path := Except.ok ["m", "b.mp3"],
    rating := fun _ => none, file_size := Except.ok 7 }

/-- A source with two playlists that share a track. -/
def sourceD : Source :=
  { playlist_by_name := fun name =>
      if name = "P1" then
        some { id := PlaylistId.Number 1, tracks := Except.ok [trackD, trackD2] }
      else if name = "P2" then
        some { id := PlaylistId.Number 2, tracks := Except.ok [trackD] }
      else none,
    playlist_by_id := fun _ => none, track_by_id := fun _ => none }

/-- A config selecting the two playlists of `sourceD`. -/
def configD : Config :=
  { source := "src", include_ratings := true, use_computed_ratings := false,
    playlists := ["P1", "P2"] }

/-- The file set `required_files` builds from `sourceD` and `configD`. -/
def fsD : FileSet :=
  { common_ancestor := ["m"],
    files_data :=
      [(["sub", "a.mp3"], { file_size := 10, id := 1, rating := none }),
       (["b.mp3"], { file_size := 7, id := 2, rating := none })],
    total_size := 17 }

/-- The first track of `playlistP`. -/
def trackP1 : TrackRec :=
  { name := "t1", id := 1, absolute_path := Except.ok ["m", "t1.mp3"],
    rating := fun _ => none, file_size := Except.ok 1 }

/-- The second track of `playlistP`. -/
def trackP2 : TrackRec :=
  { name := "t2", id := 2, absolute_path := Except.ok ["m", "t2.mp3"],
    rating := fun _ => none, file_size := Except.ok 1 }

/-- A source playlist (id 7) currently holding tracks `[1, 2]`. -/
def playlistP : SourcePlaylist :=
  { id := PlaylistId.Number 7, tracks := Except.ok [trackP1, trackP2] }

/-- A source holding only `playlistP`. -/
def sourceP : Source :=
  { playlist_by_name := fun _ => none,
    playlist_by_id := fun id =>
      if id = PlaylistId.Number 7 then some playlistP else none,
    track_by_id := fun _ => none }

/-! # Theorems

First general lemmas about the embedded definitions, then one theorem per
specification claim (with witnesses and counterexamples where applicable). -/

/-! ### Lemmas about prefix/suffix stripping -/

theorem stripPrefixCs_eq_some {p s r : List Char} :
    stripPrefixCs p s = some r ↔ s = p ++ r := by
  induction p generalizing s with
  | nil => simp [stripPrefixCs]
  | cons x xs ih =>
    cases s with
    | nil => simp [stripPrefixCs]
    | cons c cs =>
      by_cases hx : x = c
      · subst hx
        simp [stripPrefixCs, ih]
      · simp only [stripPrefixCs, if_neg hx]
        constructor
        · intro h; exact Option.noConfusion h
        · intro h
          rw [List.cons_append] at h
          injection h with h1 _
          exact (hx h1.symm).elim

theorem stripSuffixCs_eq_some {p s r : List Char} :
    stripSuffixCs p s = some r ↔ s = r ++ p := by
  unfold stripSuffixCs
  constructor
  · intro h
    rcases Option.map_eq_some'.mp h with ⟨r', hr', hrev⟩
    have hs := stripPrefixCs_eq_some.mp hr'
    have : s.reverse.reverse = (p.reverse ++ r').reverse := by rw [hs]
    simpa [← hrev, List.reverse_append] using this
  · intro h
    subst h
    refine Option.map_eq_some'.mpr ⟨r.reverse, ?_, by simp⟩
    rw [stripPrefixCs_eq_some]
    simp [List.reverse_append]

/-- Structural characterization of the classifier: a filename classifies as a
ratings playlist for `n` stars exactly when it decomposes as the prefix, a
middle part that parses (with Rust's integer syntax) to `n`, and the suffix. -/
theorem classify_eq_Ratings_iff (f : String) (n : Nat) :
    ActualPlaylistKind.classify f = ActualPlaylistKind.Ratings n ↔
      ∃ mid : List Char,
        f.data = ratingsPlaylistPrefixStr.data ++ mid ++ ratingsPlaylistSuffixStr.data ∧
        parseNonZeroU8Cs mid = some n ∧ n ≤ 5 := by
  unfold ActualPlaylistKind.classify
  constructor
  · intro h
    split at h
    · next stars hsome =>
      injection h with h'
      subst h'
      rcases Option.bind_eq_some.mp hsome with ⟨digits, hchain, hfil⟩
      rcases Option.bind_eq_some.mp hchain with ⟨rest, hpre, hsuf⟩
      rcases Option.bind_eq_some.mp hfil with ⟨v, hv, hif⟩
      have hv5 : v = stars ∧ stars ≤ 5 := by
        by_cases h5 : v ≤ 5
        · rw [if_pos h5] at hif
          injection hif with h''
          exact ⟨h'', h'' ▸ h5⟩
        · rw [if_neg h5] at hif
          exact Option.noConfusion hif
      refine ⟨digits, ?_, ?_, hv5.2⟩
      · have h1 := stripPrefixCs_eq_some.mp hpre
        have h2 := stripSuffixCs_eq_some.mp hsuf
        rw [h1, h2, List.append_assoc]
      · rw [hv, hv5.1]
    · next hnone => exact ActualPlaylistKind.noConfusion h
  · rintro ⟨mid, hdecomp, hparse, h5⟩
    have hpre : stripPrefixCs ratingsPlaylistPrefixStr.data f.data =
        some (mid ++ ratingsPlaylistSuffixStr.data) := by
      rw [stripPrefixCs_eq_some, hdecomp, List.append_assoc]
    have hsuf : stripSuffixCs ratingsPlaylistSuffixStr.data
        (mid ++ ratingsPlaylistSuffixStr.data) = some mid := by
      rw [stripSuffixCs_eq_some]
    rw [hpre]
    simp only [Option.some_bind, hsuf, hparse, if_pos h5]

/-! ### Association-list lemmas -/

theorem lookupAssoc_insertAssoc_self {K V : Type} [DecidableEq K]
    (m : List (K × V)) (k : K) (v : V) :
    lookupAssoc (insertAssoc m k v) k = some v := by
  induction m with
  | nil => simp [insertAssoc, lookupAssoc]
  | cons e rest ih =>
    by_cases he : e.1 = k
    · simp [insertAssoc, he, lookupAssoc]
    · simp [insertAssoc, he, lookupAssoc, ih]

theorem lookupAssoc_insertAssoc_ne {K V : Type} [DecidableEq K]
    (m : List (K × V)) {k k' : K} (h : k ≠ k') (v : V) :
    lookupAssoc (insertAssoc m k v) k' = lookupAssoc m k' := by
  induction m with
  | nil => simp [insertAssoc, lookupAssoc, h]
  | cons e rest ih =>
    by_cases he : e.1 = k
    · simp [insertAssoc, he, lookupAssoc, h]
    · simp [insertAssoc, he, lookupAssoc, ih]

theorem lookupAssoc_isSome_iff_mem_keys {K V : Type} [DecidableEq K]
    (m : List (K × V)) (k : K) :
    (lookupAssoc m k).isSome = true ↔ k ∈ m.map (fun e => e.1) := by
  induction m with
  | nil => simp [lookupAssoc]
  | cons e rest ih =>
    by_cases he : e.1 = k
    · simp [lookupAssoc, he]
    · simp [lookupAssoc, he, ih, Ne.symm he]

theorem lookupAssoc_mem {K V : Type} [DecidableEq K]
    {m : List (K × V)} {k : K} {v : V} (h : lookupAssoc m k = some v) :
    (k, v) ∈ m := by
  induction m with
  | nil => simp [lookupAssoc] at h
  | cons e rest ih =>
    by_cases he : e.1 = k
    · simp only [lookupAssoc, if_pos he] at h
      injection h with h'
      exact List.mem_cons.mpr (Or.inl (by cases e; simp_all))
    · simp only [lookupAssoc, if_neg he] at h
      exact List.mem_cons_of_mem _ (ih h)

theorem insertAssoc_keys_mem {K V : Type} [DecidableEq K]
    (m : List (K × V)) (k : K) (v : V) (x : K) :
    x ∈ (insertAssoc m k v).map (fun e => e.1) ↔ x ∈ m.map (fun e => e.1) ∨ x = k := by
  induction m with
  | nil => simp [insertAssoc]
  | cons e rest ih =>
    by_cases he : e.1 = k
    · by_cases hx : x = e.1
      · simp [insertAssoc, he, hx]
      · simp [insertAssoc, he, hx, ih]
        tauto
    · simp [insertAssoc, he, ih]
      tauto

theorem insertAssoc_keys_nodup {K V : Type} [DecidableEq K]
    {m : List (K × V)} (h : (m.map (fun e => e.1)).Nodup) (k : K) (v : V) :
    ((insertAssoc m k v).map (fun e => e.1)).Nodup := by
  induction m with
  | nil => simp [insertAssoc]
  | cons e rest ih =>
    simp only [List.map_cons, List.nodup_cons] at h
    by_cases he : e.1 = k
    · simp only [insertAssoc, if_pos he, List.map_cons, List.nodup_cons]
      exact ⟨he ▸ h.1, h.2⟩
    · simp only [insertAssoc, if_neg he, List.map_cons, List.nodup_cons]
      refine ⟨?_, ih h.2⟩
      rw [insertAssoc_keys_mem]
      rintro (hmem | hk)
      · exact h.1 hmem
      · exact he hk

/-! ### C7 — `music/` prefix tolerance of the id lookup -/

/-- C7 counterexample: `SyncInfo::id_for_relative_path` itself does not strip
a leading `music/` segment, so on the manifest `siA` (which knows `a.mp3`)
the claimed equality between looking up `music/a.mp3` and `a.mp3` fails. -/
theorem id_for_relative_path_music_counterexample :
    siA.id_for_relative_path ["music", "a.mp3"] = none ∧
    siA.id_for_relative_path ["a.mp3"] = some 1 ∧
    siA.id_for_relative_path ["music", "a.mp3"] ≠ siA.id_for_relative_path ["a.mp3"] := by
  refine ⟨by decide, by decide, by decide⟩

/-- C7 (amended): the `music/` stripping is performed by `m3u_to_song_ids`
before it calls `id_for_relative_path` (which only lowercases): the id
computed for a device path `music/<rest>` is `id_for_relative_path <rest>`. -/
theorem music_prefix_stripped_before_lookup (psi : SyncInfo) (rest : FsPath) :
    psi.id_for_relative_path (stripMusicDir (musicFolderNameStr :: rest)) =
      psi.id_for_relative_path rest ∧
    m3u_to_song_ids [musicFolderNameStr :: rest] psi =
      (psi.id_for_relative_path rest).toList := by
  constructor
  · simp [stripMusicDir]
  · simp [m3u_to_song_ids, stripMusicDir, List.filterMap]
    cases psi.id_for_relative_path rest <;> simp

/-! ### C5 — the playlist classifier -/

/-- C5 counterexample: `"Favourites - 01 stars.m3u"` is not the exact
concatenation for any star count, yet it classifies as `Ratings 1` (Rust's
integer parsing accepts leading zeros), where the claim requires `Regular`. -/
theorem classify_exact_name_counterexample :
    ActualPlaylistKind.classify ("Favourites - 01 stars.m3u") =
      ActualPlaylistKind.Ratings 1 ∧
    "Favourites - 01 stars.m3u" ≠ favorites_playlist_name 1 ∧
    "Favourites - 01 stars.m3u" ≠ favorites_playlist_name 2 ∧
    "Favourites - 01 stars.m3u" ≠ favorites_playlist_name 3 ∧
    "Favourites - 01 stars.m3u" ≠ favorites_playlist_name 4 ∧
    "Favourites - 01 stars.m3u" ≠ favorites_playlist_name 5 := by
  refine ⟨by decide, by decide, by decide, by decide, by decide, by decide⟩

/-- C5 (amended): a filename classifies as `Ratings n` iff it is the prefix,
then any string that Rust parses as the `u8` value `n` (so leading zeros or a
leading `+` are also accepted), then the suffix, with `n ∈ 1..=5`; the listed
boundary names classify as `Regular`, and the exact names as `Ratings n`. -/
theorem classify_ratings_characterization :
    (∀ (f : String) (n : Nat),
      ActualPlaylistKind.classify f = ActualPlaylistKind.Ratings n ↔
        ∃ mid : List Char,
          f.data = ratingsPlaylistPrefixStr.data ++ mid ++ ratingsPlaylistSuffixStr.data ∧
          parseNonZeroU8Cs mid = some n ∧ n ≤ 5) ∧
    ActualPlaylistKind.classify ("Favourites - 0 stars.m3u") =
      ActualPlaylistKind.Regular ("Favourites - 0 stars.m3u") ∧
    ActualPlaylistKind.classify ("Favourites - 6 stars.m3u") =
      ActualPlaylistKind.Regular ("Favourites - 6 stars.m3u") ∧
    ActualPlaylistKind.classify ("Favourites - 1 stars") =
      ActualPlaylistKind.Regular ("Favourites - 1 stars") ∧
    (∀ n, 1 ≤ n → n ≤ 5 →
      ActualPlaylistKind.classify (favorites_playlist_name n) =
        ActualPlaylistKind.Ratings n) := by
  refine ⟨fun f n => classify_eq_Ratings_iff f n, by decide, by decide, by decide, ?_⟩
  intro n h1 h5
  interval_cases n <;> decide

/-- C5 witness: the characterization applied to the five-star canonical name. -/
theorem classify_ratings_characterization_witness :
    ActualPlaylistKind.classify (favorites_playlist_name 5) =
      ActualPlaylistKind.Ratings 5 :=
  classify_ratings_characterization.2.2.2.2 5 (by decide) (by decide)

/-! ### C6 — forward push of the rating playlists -/

/-- C6 counterexample: on an empty file set the one-star bucket is empty, yet
`push_star_playlists` still pushes a (contentless) one-star playlist file,
where the claim requires no push for an empty bucket. -/
theorem push_star_empty_bucket_counterexample :
    lookupAssoc fsEmpty.song_paths_by_rating 1 = some [] ∧
    (favorites_playlist_name 1, "") ∈ push_star_playlists fsEmpty ∧
    push_star_playlists fsEmpty ≠ [] := by
  refine ⟨by decide, by decide, by decide⟩

/-- C6 (amended): `push_star_playlists` pushes one `Favourites - n stars.m3u`
file for every rating `n ∈ 1..=5` — empty buckets included, rendered as an
empty playlist — whose content is the M3U of the bucket's paths under
`music/`. -/
theorem push_star_playlists_every_bucket (fs : FileSet) :
    ((push_star_playlists fs).map (fun e => e.1) =
      [favorites_playlist_name 1, favorites_playlist_name 2, favorites_playlist_name 3,
        favorites_playlist_name 4, favorites_playlist_name 5]) ∧
    (∀ n, 1 ≤ n → n ≤ 5 →
      (favorites_playlist_name n,
        create_m3u ((fs.files_data.filter (fun pf => pf.2.rating = some n)).map
          (fun pf => pf.1)) [musicFolderNameStr]) ∈ push_star_playlists fs) := by
  constructor
  · simp [push_star_playlists, FileSet.song_paths_by_rating]
  · intro n h1 h5
    interval_cases n <;>
      simp [push_star_playlists, FileSet.song_paths_by_rating]

/-- C6 witness: the empty one-star bucket of the empty file set is pushed as
an empty playlist. -/
theorem push_star_playlists_every_bucket_witness :
    (favorites_playlist_name 1,
      create_m3u ((fsEmpty.files_data.filter (fun pf => pf.2.rating = some 1)).map
        (fun pf => pf.1)) [musicFolderNameStr]) ∈ push_star_playlists fsEmpty :=
  (push_star_playlists_every_bucket fsEmpty).2 1 (by decide) (by decide)

/-! ### C9 — the validator handshake of `start_sync` -/

/-- C9 counterexample: when the driver drops the inbound channel, the worker
panics on the `expect` (the sync does not run) rather than returning the
`SanityChecks` error the claim describes. -/
theorem start_sync_disconnect_counterexample :
    start_sync none ("host") (fun _ => none) (Except.ok 0) =
      StartSyncOutcome.panicked ("sender end not to disconnect") ∧
    start_sync none ("host") (fun _ => none) (Except.ok 0) ≠
      StartSyncOutcome.fatal SyncError.SanityChecks := by
  refine ⟨by decide, by decide⟩

/-- C9 (amended): if the driver drops the inbound channel the worker panics on
`inbound.recv().expect(...)` — the sync body does not run, but the failure is
a panic, not the `SanityChecks` error; the body runs only once an acknowledged
validator with `is_valid()` is received, and an invalid acknowledgement gives
`SanityChecks`. -/
theorem start_sync_handshake (psi : Option SyncInfo) (chn : String)
    (driver : SyncValidator → Option SyncValidator) (body : Except SyncError Nat) :
    (driver (SyncValidator.build psi chn) = none →
      start_sync psi chn driver body =
        StartSyncOutcome.panicked ("sender end not to disconnect")) ∧
    (∀ ack, driver (SyncValidator.build psi chn) = some ack → ack.is_valid = false →
      start_sync psi chn driver body = StartSyncOutcome.fatal SyncError.SanityChecks) ∧
    (∀ ack w, driver (SyncValidator.build psi chn) = some ack → ack.is_valid = true →
      body = Except.ok w →
      start_sync psi chn driver body = StartSyncOutcome.completed w) ∧
    (∀ ack e, driver (SyncValidator.build psi chn) = some ack → ack.is_valid = true →
      body = Except.error e →
      start_sync psi chn driver body = StartSyncOutcome.fatal e) := by
  refine ⟨?_, ?_, ?_, ?_⟩
  · intro h
    simp [start_sync, h]
  · intro ack h hvalid
    simp [start_sync, h, hvalid]
  · intro ack w h hvalid hbody
    simp [start_sync, h, hvalid, hbody]
  · intro ack e h hvalid hbody
    simp [start_sync, h, hvalid, hbody]

/-- C9 witness: the handshake theorem at a dropped channel and at an accepted
acknowledgement. -/
theorem start_sync_handshake_witness :
    start_sync none ("host") (fun _ => none) (Except.ok 2) =
      StartSyncOutcome.panicked ("sender end not to disconnect") ∧
    start_sync none ("host") (fun v => some v) (Except.ok 2) =
      StartSyncOutcome.completed 2 :=
  ⟨(start_sync_handshake none ("host") (fun _ => none) (Except.ok 2)).1 rfl,
    (start_sync_handshake none ("host") (fun v => some v) (Except.ok 2)).2.2.1
      (SyncValidator.build none ("host")) 2 rfl rfl rfl⟩

/-! ### C2 — three-way merge reverse sync of one playlist -/

/-- C2: for a regular device playlist the previous manifest knows, with
ancestor order `A`, source order `L` and device order `D`: if `D = L` nothing
is written to the source; otherwise the merge `M` is computed and
`change_contents_to(M)` is issued exactly when `M ≠ L`. -/
theorem reverse_sync_playlist_merge_write
    (merge : List TrackId → List TrackId → List TrackId → Except String (List TrackId))
    (source : Source) (playlist_id : PlaylistId)
    (A D : List TrackId) (pl : SourcePlaylist) (ts : List TrackRec)
    (hpl : source.playlist_by_id playlist_id = some pl)
    (hts : pl.tracks = Except.ok ts) :
    (D = ts.map (fun t => t.id) →
      reverse_sync_playlist merge source playlist_id A D = Except.ok none) ∧
    (∀ M, D ≠ ts.map (fun t => t.id) →
      merge A (ts.map (fun t => t.id)) D = Except.ok M →
      ((M ≠ ts.map (fun t => t.id) →
        reverse_sync_playlist merge source playlist_id A D = Except.ok (some M)) ∧
       (M = ts.map (fun t => t.id) →
        reverse_sync_playlist merge source playlist_id A D = Except.ok none))) := by
  constructor
  · intro hD
    simp [reverse_sync_playlist, hpl, hts, hD]
  · intro M hD hM
    constructor
    · intro hML
      simp only [reverse_sync_playlist, hpl, hts, if_neg hD, hM]
      rw [if_neg (fun h => hML h.symm)]
    · intro hML
      simp only [reverse_sync_playlist, hpl, hts, if_neg hD, hM]
      rw [if_pos hML.symm]

/-- C2 witness: with the source playlist `[1, 2]`, ancestor `[1, 2]` and the
device reordered to `[2, 1]`, a merge yielding `[2, 1]` is written back. -/
theorem reverse_sync_playlist_merge_write_witness :
    reverse_sync_playlist (fun _ _ _ => Except.ok [2, 1]) sourceP
      (PlaylistId.Number 7) [1, 2] [2, 1] = Except.ok (some [2, 1]) :=
  ((reverse_sync_playlist_merge_write (fun _ _ _ => Except.ok [2, 1]) sourceP
      (PlaylistId.Number 7) [1, 2] [2, 1] playlistP [trackP1, trackP2]
      rfl rfl).2 [2, 1] (by decide) rfl).1 (by decide)

/-! ### C3 — case-insensitive file-set difference -/

theorem mem_case_insensitive_difference (left right : List FsPath) (p : FsPath) :
    p ∈ case_insensitive_difference left right ↔
      p ∈ left ∧ lowerPath p ∉ right.map lowerPath := by
  rw [case_insensitive_difference, List.mem_filter]
  apply and_congr_right
  intro _
  rw [Bool.not_eq_true', ← Bool.not_eq_true, List.elem_iff]

theorem filterMap_lookup_keys {V : Type} (m : List (FsPath × V)) (l : List FsPath)
    (h : ∀ p ∈ l, p ∈ m.map (fun e => e.1)) :
    (l.filterMap (fun p => (lookupAssoc m p).map (fun v => (p, v)))).map (fun e => e.1)
      = l := by
  induction l with
  | nil => simp
  | cons p rest ih =>
    have hp : p ∈ m.map (fun e => e.1) := h p (List.mem_cons_self p rest)
    have hsome : (lookupAssoc m p).isSome = true :=
      (lookupAssoc_isSome_iff_mem_keys m p).mpr hp
    rcases Option.isSome_iff_exists.mp hsome with ⟨v, hv⟩
    simp only [List.filterMap_cons, hv, Option.map_some']
    simp only [List.map_cons]
    rw [ih (fun q hq => h q (List.mem_cons_of_mem p hq))]

/-- C3: `sync_files` deletes exactly the device files whose lowercased path is
not among the lowercased expected paths, and pushes exactly the expected files
whose lowercased path is not among the lowercased device paths; the lists keep
the original casing, and a device/source pair differing only in case is
neither deleted nor pushed. -/
theorem sync_files_case_insensitive (file_set : FileSet) (files_on_device : List FsPath) :
    (∀ p, p ∈ sync_files_to_remove file_set files_on_device ↔
      (p ∈ files_on_device ∧
        lowerPath p ∉ (file_set.files_data.map (fun e => e.1)).map lowerPath)) ∧
    (∀ p, p ∈ (sync_files_to_push file_set files_on_device).map (fun e => e.1) ↔
      (p ∈ file_set.files_data.map (fun e => e.1) ∧
        lowerPath p ∉ files_on_device.map lowerPath)) ∧
    (∀ pd ps, pd ∈ files_on_device → ps ∈ file_set.files_data.map (fun e => e.1) →
      lowerPath pd = lowerPath ps →
      pd ∉ sync_files_to_remove file_set files_on_device ∧
      ps ∉ (sync_files_to_push file_set files_on_device).map (fun e => e.1)) := by
  have hpush : (sync_files_to_push file_set files_on_device).map (fun e => e.1) =
      case_insensitive_difference (file_set.files_data.map (fun e => e.1))
        files_on_device := by
    apply filterMap_lookup_keys
    intro p hp
    exact ((mem_case_insensitive_difference _ _ p).mp hp).1
  refine ⟨?_, ?_, ?_⟩
  · intro p
    exact mem_case_insensitive_difference _ _ p
  · intro p
    rw [hpush]
    exact mem_case_insensitive_difference _ _ p
  · intro pd ps hpd hps hlow
    constructor
    · intro hmem
      rcases (mem_case_insensitive_difference _ _ pd).mp hmem with ⟨_, habs⟩
      exact habs (hlow ▸ List.mem_map_of_mem lowerPath hps)
    · intro hmem
      rw [hpush] at hmem
      rcases (mem_case_insensitive_difference _ _ ps).mp hmem with ⟨_, habs⟩
      exact habs (hlow ▸ List.mem_map_of_mem lowerPath hpd)

/-- C3 witness: `Song.mp3` expected by the source and `song.MP3` present on
the device differ only in case, so neither a delete nor a push is issued. -/
theorem sync_files_case_insensitive_witness :
    ["song.MP3"] ∉ sync_files_to_remove fsC deviceC ∧
    ["Song.mp3"] ∉ (sync_files_to_push fsC deviceC).map (fun e => e.1) :=
  (sync_files_case_insensitive fsC deviceC).2.2 ["song.MP3"] ["Song.mp3"]
    (by decide) (by decide) (by decide)

/-! ### C8 — size deduplication in `required_files` -/

theorem firstOccSum_congr (l : List (FsPath × Nat)) {s1 s2 : List FsPath}
    (h : ∀ x, x ∈ s1 ↔ x ∈ s2) :
    firstOccSum s1 l = firstOccSum s2 l := by
  induction l generalizing s1 s2 with
  | nil => rfl
  | cons e rest ih =>
    by_cases he : e.1 ∈ s1
    · rw [firstOccSum, if_pos he, firstOccSum, if_pos ((h e.1).mp he), ih h]
    · rw [firstOccSum, if_neg he, firstOccSum, if_neg (fun hx => he ((h e.1).mpr hx))]
      congr 1
      apply ih
      intro x
      simp [h x]

theorem scan_foldl_total (use_computed_ratings : Bool) (ts : List TrackRec)
    (t : Nat) (m : List (FsPath × FileData)) :
    ((ts.foldl (scanStep use_computed_ratings) (t, m)).1 =
      t + firstOccSum (m.map (fun e => e.1)) (okScanEntries ts)) := by
  induction ts generalizing t m with
  | nil => simp [okScanEntries, firstOccSum]
  | cons track rest ih =>
    rw [List.foldl_cons]
    cases habs : track.absolute_path with
    | error e =>
      rw [okScanEntries]
      simp only [habs]
      have : scanStep use_computed_ratings (t, m) track = (t, m) := by
        simp [scanStep, habs]
      rw [this, ih]
    | ok p =>
      rw [okScanEntries]
      simp only [habs]
      by_cases hmem : p ∈ m.map (fun e => e.1)
      · have hsome : (lookupAssoc m p).isSome = true :=
          (lookupAssoc_isSome_iff_mem_keys m p).mpr hmem
        have hstep : scanStep use_computed_ratings (t, m) track =
            (t, insertAssoc m p
              { file_size := sizeOrZero track, id := track.id,
                rating := track.rating use_computed_ratings }) := by
          simp [scanStep, habs, hsome]
        rw [hstep, ih, firstOccSum, if_pos hmem]
        congr 1
        apply firstOccSum_congr
        intro x
        rw [insertAssoc_keys_mem]
        constructor
        · rintro (hx | hx)
          · exact hx
          · exact hx ▸ hmem
        · exact Or.inl
      · have hnone : (lookupAssoc m p).isSome = false := by
          rw [Bool.eq_false_iff]
          intro habs2
          exact hmem ((lookupAssoc_isSome_iff_mem_keys m p).mp habs2)
        have hstep : scanStep use_computed_ratings (t, m) track =
            (t + sizeOrZero track, insertAssoc m p
              { file_size := sizeOrZero track, id := track.id,
                rating := track.rating use_computed_ratings }) := by
          simp [scanStep, habs, hnone]
        have hcongr : firstOccSum ((insertAssoc m p
              { file_size := sizeOrZero track, id := track.id,
                rating := track.rating use_computed_ratings }).map (fun e => e.1))
            (okScanEntries rest) =
            firstOccSum (p :: m.map (fun e => e.1)) (okScanEntries rest) := by
          apply firstOccSum_congr
          intro x
          rw [insertAssoc_keys_mem]
          constructor
          · rintro (hx | hx)
            · exact List.mem_cons_of_mem _ hx
            · exact hx ▸ List.mem_cons_self _ _
          · intro hx
            rcases List.mem_cons.mp hx with hx | hx
            · exact Or.inr hx
            · exact Or.inl hx
        rw [hstep, ih, hcongr, firstOccSum, if_neg hmem, Nat.add_assoc]

theorem scan_foldl_keys_nodup (use_computed_ratings : Bool) (ts : List TrackRec)
    (t : Nat) (m : List (FsPath × FileData))
    (h : (m.map (fun e => e.1)).Nodup) :
    (((ts.foldl (scanStep use_computed_ratings) (t, m)).2.map (fun e => e.1)).Nodup) := by
  induction ts generalizing t m with
  | nil => simpa using h
  | cons track rest ih =>
    rw [List.foldl_cons]
    cases habs : track.absolute_path with
    | error e =>
      have : scanStep use_computed_ratings (t, m) track = (t, m) := by
        simp [scanStep, habs]
      rw [this]
      exact ih t m h
    | ok p =>
      have hkeys : ∀ d : FileData,
          ((insertAssoc m p d).map (fun e => e.1)).Nodup :=
        fun d => insertAssoc_keys_nodup h p d
      by_cases hsome : (lookupAssoc m p).isSome = true
      · have hstep : scanStep use_computed_ratings (t, m) track =
            (t, insertAssoc m p
              { file_size := sizeOrZero track, id := track.id,
                rating := track.rating use_computed_ratings }) := by
          simp [scanStep, habs, hsome]
        rw [hstep]
        exact ih _ _ (hkeys _)
      · have hstep : scanStep use_computed_ratings (t, m) track =
            (t + sizeOrZero track, insertAssoc m p
              { file_size := sizeOrZero track, id := track.id,
                rating := track.rating use_computed_ratings }) := by
          simp [scanStep, habs]
          intro habs2
          exact absurd habs2 (by simpa using hsome)
        rw [hstep]
        exact ih _ _ (hkeys _)

theorem stripPathComponents_eq_some {ancestor p s : FsPath} :
    stripPathComponents ancestor p = some s ↔ p = ancestor ++ s := by
  unfold stripPathComponents
  by_cases hpre : ancestor.isPrefixOf p
  · rw [if_pos hpre]
    have hp : ancestor <+: p := by
      rwa [← List.isPrefixOf_iff_prefix]
    rcases hp with ⟨tail, htail⟩
    have hdrop : p.drop ancestor.length = tail := by
      rw [← htail, List.drop_left]
    rw [hdrop]
    constructor
    · intro h
      injection h with h'
      rw [← htail, h']
    · intro h
      have : tail = s := by
        have := htail.trans h
        exact List.append_cancel_left this
      rw [this]
  · rw [if_neg hpre]
    constructor
    · intro h
      exact Option.noConfusion h
    · intro h
      exfalso
      apply hpre
      rw [List.isPrefixOf_iff_prefix, h]
      exact ⟨s, rfl⟩

theorem strip_filterMap_keys_nodup (ancestor : FsPath)
    (m : List (FsPath × FileData)) (h : (m.map (fun e => e.1)).Nodup) :
    (((m.filterMap (fun e =>
        (stripPathComponents ancestor e.1).map (fun stripped => (stripped, e.2)))).map
      (fun e => e.1)).Nodup) := by
  induction m with
  | nil => simp
  | cons e rest ih =>
    simp only [List.map_cons, List.nodup_cons] at h
    rw [List.filterMap_cons]
    cases hstrip : stripPathComponents ancestor e.1 with
    | none => exact ih h.2
    | some s =>
      simp only [Option.map_some', List.map_cons, List.nodup_cons]
      refine ⟨?_, ih h.2⟩
      intro habs
      rcases List.mem_map.mp habs with ⟨e2, he2, he2s⟩
      rcases List.mem_filterMap.mp he2 with ⟨e3, he3, he3e2⟩
      rcases Option.map_eq_some'.mp he3e2 with ⟨s3, hs3, hs3e2⟩
      have hkey : e3.1 = ancestor ++ s3 := stripPathComponents_eq_some.mp hs3
      have hs3s : s3 = s := by
        have : e2.1 = s3 := by rw [← hs3e2]
        rw [← he2s, this]
      have hekey : e.1 = ancestor ++ s := stripPathComponents_eq_some.mp hstrip
      apply h.1
      have : e3.1 = e.1 := by rw [hkey, hs3s, hekey]
      rw [← this]
      exact List.mem_map_of_mem (fun e => e.1) he3

/-- C8: in the file set built by `required_files`, an absolute path occurring
several times across the scanned playlists contributes its size once:
`total_size` is the sum over distinct absolute paths of the size recorded at
the first occurrence, and each path appears exactly once in `files_data`. -/
theorem required_files_dedup (source : Source) (config : Config) (fs : FileSet)
    (h : required_files source config = Except.ok fs) :
    fs.total_size =
      firstOccSum [] (okScanEntries (collectTracks source config.playlists)) ∧
    (fs.files_data.map (fun e => e.1)).Nodup := by
  simp only [required_files] at h
  split at h
  · exact Except.noConfusion h
  · next ca hca =>
    injection h with h'
    subst h'
    constructor
    · have := scan_foldl_total config.use_computed_ratings
        (collectTracks source config.playlists) 0 []
      simpa using this
    · apply strip_filterMap_keys_nodup
      exact scan_foldl_keys_nodup config.use_computed_ratings
        (collectTracks source config.playlists) 0 [] (by simp)

/-- C8 witness: `sourceD`'s two playlists share a 10-byte track; its size is
counted once (`total_size = 17`), and `files_data` holds each path once. -/
theorem required_files_dedup_witness :
    fsD.total_size =
      firstOccSum [] (okScanEntries (collectTracks sourceD configD.playlists)) ∧
    (fsD.files_data.map (fun e => e.1)).Nodup :=
  required_files_dedup sourceD configD fsD (by rfl)

/-! ### Lemmas on the five-bucket presence check -/

theorem getD_set_ne {α : Type} (l : List α) (i k : Nat) (h : i ≠ k) (a d : α) :
    (l.set i a).getD k d = l.getD k d := by
  induction l generalizing i k with
  | nil => simp
  | cons x xs ih =>
    cases i with
    | zero =>
      cases k with
      | zero => exact absurd rfl h
      | succ k' => simp [List.set]
    | succ i' =>
      cases k with
      | zero => simp [List.set]
      | succ k' =>
        simp only [List.set, List.getD_cons_succ]
        exact ih i' k' (fun he => h (congrArg Nat.succ he))

theorem foundFold_getD_true (pls : List (String × List FsPath)) (fp : List Bool)
    (k : Nat) (h : (pls.foldl ratingsFoundStep fp).getD k false = true) :
    fp.getD k false = true ∨
      ∃ f ∈ pls, (ActualPlaylistKind.classify f.1).stars = some k := by
  induction pls generalizing fp with
  | nil => exact Or.inl h
  | cons f rest ih =>
    rw [List.foldl_cons] at h
    rcases ih (ratingsFoundStep fp f) h with hbase | ⟨g, hg, hgs⟩
    · unfold ratingsFoundStep at hbase
      cases hstars : (ActualPlaylistKind.classify f.1).stars with
      | none =>
        rw [hstars] at hbase
        exact Or.inl hbase
      | some s =>
        rw [hstars] at hbase
        by_cases hk : s = k
        · exact Or.inr ⟨f, List.mem_cons_self f rest, hk ▸ hstars⟩
        · rw [getD_set_ne fp s k hk] at hbase
          exact Or.inl hbase
    · exact Or.inr ⟨g, List.mem_cons_of_mem f hg, hgs⟩

theorem foundFold_length (pls : List (String × List FsPath)) (fp : List Bool) :
    (pls.foldl ratingsFoundStep fp).length = fp.length := by
  induction pls generalizing fp with
  | nil => rfl
  | cons f rest ih =>
    rw [List.foldl_cons, ih]
    unfold ratingsFoundStep
    cases (ActualPlaylistKind.classify f.1).stars <;> simp

theorem all_getD_of_lt {l : List Bool} (h : l.all (fun v => v) = true)
    {k : Nat} (hk : k < l.length) : l.getD k false = true := by
  rw [List.getD_eq_getElem l false hk]
  exact List.all_eq_true.mp h _ (List.getElem_mem hk)

/-- If the five-bucket check passes, every star count in `1..=5` has a file on
the device classifying to it. -/
theorem are_all_stars_exist {pls : List (String × List FsPath)}
    (h : are_all_ratings_playslists_on_device pls = true)
    {s : Nat} (h1 : 1 ≤ s) (h5 : s ≤ 5) :
    ∃ f ∈ pls, (ActualPlaylistKind.classify f.1).stars = some s := by
  unfold are_all_ratings_playslists_on_device at h
  have hlen : (pls.foldl ratingsFoundStep
      [true, false, false, false, false, false]).length = 6 := by
    rw [foundFold_length]
    rfl
  have hgetD : (pls.foldl ratingsFoundStep
      [true, false, false, false, false, false]).getD s false = true :=
    all_getD_of_lt h (by omega)
  rcases foundFold_getD_true pls _ s hgetD with hbase | hex
  · exfalso
    interval_cases s <;> simp [List.getD] at hbase
  · exact hex

/-! ### Lemmas on the bucket-building fold -/

theorem lookupAssoc_insertAssoc_isSome {K V : Type} [DecidableEq K]
    (m : List (K × V)) (k k' : K) (v : V)
    (h : (lookupAssoc m k').isSome = true) :
    (lookupAssoc (insertAssoc m k v) k').isSome = true := by
  by_cases hk : k = k'
  · rw [hk, lookupAssoc_insertAssoc_self]
    rfl
  · rw [lookupAssoc_insertAssoc_ne m hk]
    exact h

theorem ratingsFold_bucket_isSome (psi : SyncInfo)
    (pls : List (String × List FsPath)) (acc : List TrackId × List (Rating × List TrackId))
    (s : Nat)
    (h : (∃ f ∈ pls, (ActualPlaylistKind.classify f.1).stars = some s) ∨
      (lookupAssoc acc.2 (some s)).isSome = true) :
    (lookupAssoc (pls.foldl (ratingsStep psi) acc).2 (some s)).isSome = true := by
  induction pls generalizing acc with
  | nil =>
    rcases h with ⟨f, hf, _⟩ | h
    · exact absurd hf (List.not_mem_nil f)
    · exact h
  | cons f rest ih =>
    rw [List.foldl_cons]
    apply ih
    rcases h with ⟨g, hg, hgs⟩ | h
    · rcases List.mem_cons.mp hg with hgf | hgrest
      · right
        subst hgf
        simp only [ratingsStep, hgs]
        rw [lookupAssoc_insertAssoc_self]
        rfl
      · exact Or.inl ⟨g, hgrest, hgs⟩
    · right
      unfold ratingsStep
      cases hstars : (ActualPlaylistKind.classify f.1).stars with
      | none => exact h
      | some s' => exact lookupAssoc_insertAssoc_isSome _ _ _ _ h

/-! ### C10 — the overlap check is complete once the five buckets exist -/

theorem have_sets_overlap_eq_some {m : List (Rating × List TrackId)} {i j : Nat}
    {li lj : List TrackId} (hi0 : i ≠ 0) (hj0 : j ≠ 0)
    (hli : lookupAssoc m (some i) = some li) (hlj : lookupAssoc m (some j) = some lj) :
    have_sets_overlap m i j = some (li.any (fun t => lj.contains t)) := by
  simp [have_sets_overlap, nonZeroU8New, hi0, hj0, hli, hlj]

theorem overlap_getD_true_of_shared {m : List (Rating × List TrackId)}
    {i j : Nat} (t : TrackId) {li lj : List TrackId}
    (hi0 : i ≠ 0) (hj0 : j ≠ 0)
    (hli : lookupAssoc m (some i) = some li) (hlj : lookupAssoc m (some j) = some lj)
    (hti : t ∈ li) (htj : t ∈ lj) :
    (have_sets_overlap m i j).getD true = true := by
  rw [have_sets_overlap_eq_some hi0 hj0 hli hlj]
  simp only [Option.getD_some, List.any_eq_true]
  exact ⟨t, hti, List.elem_iff.mpr htj⟩

theorem shared_of_overlap_getD_true {m : List (Rating × List TrackId)}
    {i j : Nat} {li lj : List TrackId}
    (hi0 : i ≠ 0) (hj0 : j ≠ 0)
    (hli : lookupAssoc m (some i) = some li) (hlj : lookupAssoc m (some j) = some lj)
    (h : (have_sets_overlap m i j).getD true = true) :
    ∃ t, t ∈ li ∧ t ∈ lj := by
  rw [have_sets_overlap_eq_some hi0 hj0 hli hlj] at h
  simp only [Option.getD_some, List.any_eq_true] at h
  rcases h with ⟨t, hti, htj⟩
  exact ⟨t, hti, List.elem_iff.mp htj⟩

/-- When all five rated buckets are present in the map, the literal ten-way
overlap test is true exactly when two distinct rated buckets share a track. -/
theorem duplicate_check_iff_shared (m : List (Rating × List TrackId))
    (hpresent : ∀ s, 1 ≤ s → s ≤ 5 → (lookupAssoc m (some s)).isSome = true) :
    duplicate_ratings_check m = true ↔
      ∃ i j t, i ≠ j ∧ 1 ≤ i ∧ i ≤ 5 ∧ 1 ≤ j ∧ j ≤ 5 ∧
        (∃ li, lookupAssoc m (some i) = some li ∧ t ∈ li) ∧
        (∃ lj, lookupAssoc m (some j) = some lj ∧ t ∈ lj) := by
  have hone : ∀ i j, 1 ≤ i → i ≤ 5 → 1 ≤ j → j ≤ 5 →
      (have_sets_overlap m i j).getD true = true →
      ∃ t, (∃ li, lookupAssoc m (some i) = some li ∧ t ∈ li) ∧
        (∃ lj, lookupAssoc m (some j) = some lj ∧ t ∈ lj) := by
    intro i j h1i h5i h1j h5j hterm
    rcases Option.isSome_iff_exists.mp (hpresent i h1i h5i) with ⟨li, hli⟩
    rcases Option.isSome_iff_exists.mp (hpresent j h1j h5j) with ⟨lj, hlj⟩
    rcases shared_of_overlap_getD_true (by omega) (by omega) hli hlj hterm with
      ⟨t, hti, htj⟩
    exact ⟨t, ⟨li, hli, hti⟩, ⟨lj, hlj, htj⟩⟩
  constructor
  · intro hdup
    unfold duplicate_ratings_check at hdup
    simp only [Bool.or_eq_true] at hdup
    rcases hdup with ((((((((h | h) | h) | h) | h) | h) | h) | h) | h) | h
    · rcases hone 1 2 (by omega) (by omega) (by omega) (by omega) h with ⟨t, h1, h2⟩
      exact ⟨1, 2, t, by omega, by omega, by omega, by omega, by omega, h1, h2⟩
    · rcases hone 1 3 (by omega) (by omega) (by omega) (by omega) h with ⟨t, h1, h2⟩
      exact ⟨1, 3, t, by omega, by omega, by omega, by omega, by omega, h1, h2⟩
    · rcases hone 1 4 (by omega) (by omega) (by omega) (by omega) h with ⟨t, h1, h2⟩
      exact ⟨1, 4, t, by omega, by omega, by omega, by omega, by omega, h1, h2⟩
    · rcases hone 1 5 (by omega) (by omega) (by omega) (by omega) h with ⟨t, h1, h2⟩
      exact ⟨1, 5, t, by omega, by omega, by omega, by omega, by omega, h1, h2⟩
    · rcases hone 2 3 (by omega) (by omega) (by omega) (by omega) h with ⟨t, h1, h2⟩
      exact ⟨2, 3, t, by omega, by omega, by omega, by omega, by omega, h1, h2⟩
    · rcases hone 2 4 (by omega) (by omega) (by omega) (by omega) h with ⟨t, h1, h2⟩
      exact ⟨2, 4, t, by omega, by omega, by omega, by omega, by omega, h1, h2⟩
    · rcases hone 2 5 (by omega) (by omega) (by omega) (by omega) h with ⟨t, h1, h2⟩
      exact ⟨2, 5, t, by omega, by omega, by omega, by omega, by omega, h1, h2⟩
    · rcases hone 3 4 (by omega) (by omega) (by omega) (by omega) h with ⟨t, h1, h2⟩
      exact ⟨3, 4, t, by omega, by omega, by omega, by omega, by omega, h1, h2⟩
    · rcases hone 3 5 (by omega) (by omega) (by omega) (by omega) h with ⟨t, h1, h2⟩
      exact ⟨3, 5, t, by omega, by omega, by omega, by omega, by omega, h1, h2⟩
    · rcases hone 4 5 (by omega) (by omega) (by omega) (by omega) h with ⟨t, h1, h2⟩
      exact ⟨4, 5, t, by omega, by omega, by omega, by omega, by omega, h1, h2⟩
  · rintro ⟨i, j, t, hne, h1i, h5i, h1j, h5j, ⟨li, hli, hti⟩, ⟨lj, hlj, htj⟩⟩
    interval_cases i <;> interval_cases j <;>
      first
      | exact absurd rfl hne
      | (have hx := overlap_getD_true_of_shared t (by omega) (by omega) hli hlj hti htj
         simp [duplicate_ratings_check, hx]
         done)
      | (have hx := overlap_getD_true_of_shared t (by omega) (by omega) hlj hli htj hti
         simp [duplicate_ratings_check, hx]
         done)

/-- C10: once the five-bucket presence check has passed, each of the ten
`have_sets_overlap` calls returns `some` (the `unwrap_or(true)` fallback is
unreachable), and the rating phase returns `DuplicateRatingsForASong` exactly
when two distinct rating buckets actually share a track id. -/
theorem overlap_checks_complete
    (psi : SyncInfo) (files_on_device : List FsPath)
    (rpls : List (String × List FsPath)) (source : Source) (uc : Bool)
    (h5 : are_all_ratings_playslists_on_device rpls = true) :
    (∀ i j, 1 ≤ i → i < j → j ≤ 5 →
      (have_sets_overlap (ratingsFold psi files_on_device rpls).2 i j).isSome = true) ∧
    (reverse_sync_ratings_inner psi files_on_device source uc rpls =
        Except.error ReverseSyncRatingsError.DuplicateRatingsForASong ↔
      ∃ i j t, i ≠ j ∧ 1 ≤ i ∧ i ≤ 5 ∧ 1 ≤ j ∧ j ≤ 5 ∧
        (∃ li, lookupAssoc (ratingsFold psi files_on_device rpls).2 (some i) = some li ∧
          t ∈ li) ∧
        (∃ lj, lookupAssoc (ratingsFold psi files_on_device rpls).2 (some j) = some lj ∧
          t ∈ lj)) := by
  have hpresent : ∀ s, 1 ≤ s → s ≤ 5 →
      (lookupAssoc (ratingsFold psi files_on_device rpls).2 (some s)).isSome = true := by
    intro s h1 h5'
    exact ratingsFold_bucket_isSome psi rpls _ s (Or.inl (are_all_stars_exist h5 h1 h5'))
  constructor
  · intro i j h1i hij h5j
    rcases Option.isSome_iff_exists.mp (hpresent i h1i (by omega)) with ⟨li, hli⟩
    rcases Option.isSome_iff_exists.mp (hpresent j (by omega) h5j) with ⟨lj, hlj⟩
    rw [have_sets_overlap_eq_some (by omega) (by omega) hli hlj]
    rfl
  · rw [← duplicate_check_iff_shared _ hpresent]
    by_cases hdup : duplicate_ratings_check (ratingsFold psi files_on_device rpls).2 = true
    · simp [reverse_sync_ratings_inner, h5, hdup]
    · simp [reverse_sync_ratings_inner, h5, hdup]

/-- C10 witness: the completeness statement instantiated at the five concrete
rating playlists `starB`. -/
theorem overlap_checks_complete_witness :
    (∀ i j, 1 ≤ i → i < j → j ≤ 5 →
      (have_sets_overlap (ratingsFold siB filesB starB).2 i j).isSome = true) ∧
    (reverse_sync_ratings_inner siB filesB sourceB false starB =
        Except.error ReverseSyncRatingsError.DuplicateRatingsForASong ↔
      ∃ i j t, i ≠ j ∧ 1 ≤ i ∧ i ≤ 5 ∧ 1 ≤ j ∧ j ≤ 5 ∧
        (∃ li, lookupAssoc (ratingsFold siB filesB starB).2 (some i) = some li ∧
          t ∈ li) ∧
        (∃ lj, lookupAssoc (ratingsFold siB filesB starB).2 (some j) = some lj ∧
          t ∈ lj)) :=
  overlap_checks_complete siB filesB starB sourceB false (by decide)

/-! ### C1 — rating conflicts: the source wins -/

theorem mem_rating_update_calls {psi : SyncInfo} {source : Source} {uc : Bool}
    {m : List (Rating × List TrackId)} {tid : TrackId} {r : Rating} :
    (tid, r) ∈ rating_update_calls psi source uc m ↔
      ∃ bucket, (r, bucket) ∈ m ∧ tid ∈ bucket ∧ psi.rating_for_id tid ≠ r ∧
        ∃ track, source.track_by_id tid = some track ∧
          track.rating uc = psi.rating_for_id tid := by
  unfold rating_update_calls
  rw [List.mem_flatMap]
  constructor
  · rintro ⟨bucket, hb, hmem⟩
    rw [List.mem_filterMap] at hmem
    rcases hmem with ⟨tid', htid', heq⟩
    dsimp only at heq
    by_cases hprev : psi.rating_for_id tid' = bucket.1
    · rw [if_pos hprev] at heq
      exact Option.noConfusion heq
    · rw [if_neg hprev] at heq
      cases htr : source.track_by_id tid' with
      | none =>
        rw [htr] at heq
        exact Option.noConfusion heq
      | some track =>
        rw [htr] at heq
        dsimp only at heq
        by_cases hconf : track.rating uc ≠ psi.rating_for_id tid'
        · rw [if_pos hconf] at heq
          exact Option.noConfusion heq
        · rw [if_neg hconf] at heq
          injection heq with heq'
          have htid2 : tid' = tid := congrArg Prod.fst heq'
          have hrat : bucket.1 = r := congrArg Prod.snd heq'
          subst htid2
          refine ⟨bucket.2, ?_, htid', ?_, track, htr, not_not.mp hconf⟩
          · have : bucket = (r, bucket.2) := by
              cases bucket
              simp_all
            rw [← this]
            exact hb
          · rw [hrat] at hprev
            exact hprev
  · rintro ⟨bucket, hb, htid, hne, track, htr, hrs⟩
    refine ⟨(r, bucket), hb, ?_⟩
    rw [List.mem_filterMap]
    refine ⟨tid, htid, ?_⟩
    dsimp only
    rw [if_neg hne, htr]
    dsimp only
    rw [if_neg (fun h => h hrs)]

theorem reverse_sync_ratings_ok_calls
    (psi : SyncInfo) (files_on_device : List FsPath) (source : Source) (uc : Bool)
    (starsync_files : List (String × List FsPath)) (calls : List (TrackId × Rating))
    (hok : reverse_sync_ratings (some psi) files_on_device source uc starsync_files =
      Except.ok calls) :
    calls = rating_update_calls psi source uc
      (ratingsAll psi files_on_device
        (playlists_on_device RequestedPlaylistKind.Ratings psi starsync_files)) := by
  have hok' : reverse_sync_ratings_inner psi files_on_device source uc
      (playlists_on_device RequestedPlaylistKind.Ratings psi starsync_files) =
      Except.ok calls := hok
  unfold reverse_sync_ratings_inner at hok'
  split at hok'
  · exact Except.noConfusion hok'
  · split at hok'
    · exact Except.noConfusion hok'
    · injection hok' with hok2
      exact hok2.symm

/-- C1: during rating reverse-sync (previous manifest present, phase
completing), for a track whose device rating differs from the manifest's: if
the track still exists in the source and its current source rating also
differs from the manifest rating, no `set_rating` call is issued for it (the
source wins); if the source rating equals the manifest rating,
`set_rating(rating_on_device)` is issued. -/
theorem reverse_sync_ratings_source_wins
    (psi : SyncInfo) (files_on_device : List FsPath) (source : Source) (uc : Bool)
    (starsync_files : List (String × List FsPath)) (calls : List (TrackId × Rating))
    (hok : reverse_sync_ratings (some psi) files_on_device source uc starsync_files =
      Except.ok calls)
    (rating_on_device : Rating) (bucket : List TrackId) (track_id : TrackId)
    (hbucket : (rating_on_device, bucket) ∈
      ratingsAll psi files_on_device
        (playlists_on_device RequestedPlaylistKind.Ratings psi starsync_files))
    (hid : track_id ∈ bucket)
    (hchanged : psi.rating_for_id track_id ≠ rating_on_device)
    (track : TrackRec) (htrack : source.track_by_id track_id = some track) :
    (track.rating uc ≠ psi.rating_for_id track_id → ∀ r, (track_id, r) ∉ calls) ∧
    (track.rating uc = psi.rating_for_id track_id →
      (track_id, rating_on_device) ∈ calls) := by
  have hcalls := reverse_sync_ratings_ok_calls psi files_on_device source uc
    starsync_files calls hok
  constructor
  · intro hconf r hmem
    rw [hcalls] at hmem
    rcases mem_rating_update_calls.mp hmem with
      ⟨b, _, _, _, track', htrack', hrs⟩
    rw [htrack] at htrack'
    injection htrack' with htrack''
    rw [← htrack''] at hrs
    exact hconf hrs
  · intro heq
    rw [hcalls]
    exact mem_rating_update_calls.mpr
      ⟨bucket, hbucket, hid, hchanged, track, htrack, heq⟩

/-- C1 witness: manifest rating 3★, device bucket 5★, source still 3★ — the
`set_rating(Some 5)` call for the track is issued. -/
theorem reverse_sync_ratings_source_wins_witness :
    ((1 : TrackId), (some 5 : Rating)) ∈ rating_update_calls siB sourceB false
      (ratingsAll siB filesB
        (playlists_on_device RequestedPlaylistKind.Ratings siB starB)) :=
  (reverse_sync_ratings_source_wins siB filesB sourceB false starB
      (rating_update_calls siB sourceB false
        (ratingsAll siB filesB
          (playlists_on_device RequestedPlaylistKind.Ratings siB starB)))
      (by rfl) (some 5) [1] 1 (by decide) (by decide) (by decide)
      trackB (by rfl)).2 (by rfl)

/-! ### C4 — a missing rating bucket aborts only the rating phase -/

/-- C4 counterexample: the exact file `Favourites - 1 stars.m3u` is absent
from `starB01`, yet the rating phase does not return `MisingRatingsLists`
(the variant spelling `Favourites - 01 stars.m3u` satisfies the check), where
the claim requires the error. -/
theorem missing_ratings_exact_name_counterexample :
    starB01.all (fun f => !(f.1 == "Favourites - 1 stars.m3u")) = true ∧
    reverse_sync_ratings (some siA) [] sourceEmpty false starB01 = Except.ok [] := by
  refine ⟨by decide, by rfl⟩

/-- C4 (amended): if for some `n ∈ 1..=5` no `.m3u` file on the device
classifies as `Ratings n` (in particular, the exact file is missing and no
variant spelling of it is present), the rating phase returns
`MisingRatingsLists`; the error is demoted to a warning by `sync_inner`, the
later phases still run, and the cycle completes with `Ok(warnings)`. -/
theorem missing_ratings_aborts_only_rating_phase
    (psi : SyncInfo) (files_on_device : List FsPath) (source : Source) (uc : Bool)
    (starsync_files : List (String × List FsPath))
    (hmissing : ∃ n, 1 ≤ n ∧ n ≤ 5 ∧
      ∀ f ∈ starsync_files, (ActualPlaylistKind.classify f.1).stars ≠ some n) :
    reverse_sync_ratings (some psi) files_on_device source uc starsync_files =
      Except.error ReverseSyncRatingsError.MisingRatingsLists ∧
    (∀ fod : List FsPath,
      sync_inner true
        { files_on_device := Except.ok fod,
          reverse_playlists := Except.ok (),
          reverse_ratings := (reverse_sync_ratings (some psi) files_on_device source uc
            starsync_files).map (fun _ => ()),
          required_files := Except.ok (), sync_files := Except.ok (),
          update_playlists := Except.ok (), update_sync_info := Except.ok () } =
        Except.ok 1) ∧
    (∀ (fod : List FsPath) (msg : String),
      sync_inner true
        { files_on_device := Except.ok fod,
          reverse_playlists := Except.ok (),
          reverse_ratings := (reverse_sync_ratings (some psi) files_on_device source uc
            starsync_files).map (fun _ => ()),
          required_files := Except.ok (), sync_files := Except.ok (),
          update_playlists := Except.ok (), update_sync_info := Except.error msg } =
        Except.error (SyncError.UpdateSyncInfoFailed msg)) := by
  have hare : are_all_ratings_playslists_on_device
      (playlists_on_device RequestedPlaylistKind.Ratings psi starsync_files) = false := by
    rcases hmissing with ⟨n, h1, h55, hall⟩
    rw [Bool.eq_false_iff]
    intro htrue
    rcases are_all_stars_exist htrue h1 h55 with ⟨f, hf, hstars⟩
    have hfstar : f ∈ starsync_files := (List.mem_filter.mp hf).1
    exact hall f hfstar hstars
  have hphase : reverse_sync_ratings (some psi) files_on_device source uc starsync_files =
      Except.error ReverseSyncRatingsError.MisingRatingsLists := by
    have hinner : reverse_sync_ratings_inner psi files_on_device source uc
        (playlists_on_device RequestedPlaylistKind.Ratings psi starsync_files) =
        Except.error ReverseSyncRatingsError.MisingRatingsLists := by
      unfold reverse_sync_ratings_inner
      rw [if_pos hare]
    exact hinner
  refine ⟨hphase, ?_, ?_⟩
  · intro fod
    rw [hphase]
    simp [sync_inner, Except.map]
  · intro fod msg
    rw [hphase]
    simp [sync_inner, Except.map]

/-- C4 witness: with only the four playlists of `starFour` on the device, the
phase errors with `MisingRatingsLists`, the cycle still returns `Ok(1)`, and a
later phase error still surfaces (so the later phases did run). -/
theorem missing_ratings_aborts_only_rating_phase_witness :
    reverse_sync_ratings (some siA) [] sourceEmpty false starFour =
      Except.error ReverseSyncRatingsError.MisingRatingsLists ∧
    (∀ fod : List FsPath,
      sync_inner true
        { files_on_device := Except.ok fod,
          reverse_playlists := Except.ok (),
          reverse_ratings := (reverse_sync_ratings (some siA) [] sourceEmpty false
            starFour).map (fun _ => ()),
          required_files := Except.ok (), sync_files := Except.ok (),
          update_playlists := Except.ok (), update_sync_info := Except.ok () } =
        Except.ok 1) ∧
    (∀ (fod : List FsPath) (msg : String),
      sync_inner true
        { files_on_device := Except.ok fod,
          reverse_playlists := Except.ok (),
          reverse_ratings := (reverse_sync_ratings (some siA) [] sourceEmpty false
            starFour).map (fun _ => ()),
          required_files := Except.ok (), sync_files := Except.ok (),
          update_playlists := Except.ok (), update_sync_info := Except.error msg } =
        Except.error (SyncError.UpdateSyncInfoFailed msg)) :=
  missing_ratings_aborts_only_rating_phase siA [] sourceEmpty false starFour
    ⟨1, by decide, by decide, by decide⟩

end StarSync
